import Mathlib

/-!
Verification of the Mention Retrieval & Presentation Cache layer of the
`ai-journalist-frontend` repository (files `frontend/app.py` and
`frontend/pages/1_mentions.py`) against its natural-language specification.

The Python code is shallowly embedded: JSON values become the inductive
`JVal`, Python dicts with a known key set become structures whose fields are
`Option`-valued (`none` = key absent, `some v` = key present with value `v`,
where `v` may be JSON `null`), Python floats are modelled as exact rationals,
and the TTL memoization that `@st.cache_data(ttl=60)` applies to
`fetch_mentions` is made explicit as a cache-state-passing function.
-/

/-- A JSON scalar value as manipulated by the Python code.  Python `None`
(JSON `null`) is `JVal.null`; strings, numbers and booleans carry their
payload.  Floats are modelled as exact rationals. -/
inductive JVal where
  | null
  | str (s : String)
  | num (q : ℚ)
  | bool (b : Bool)
deriving DecidableEq, Repr

/-- Python truthiness (`if x:` / `x or y`) for the JSON scalars the code
tests: `None`, `""`, `0` and `False` are falsy, everything else truthy. -/
def pyTruthy : JVal → Bool
  | .null => false
  | .str s => s ≠ ""
  | .num q => q ≠ 0
  | .bool b => b

/-- The nested `article` object of a raw backend mention, as read by both
normalizers (`d.get("article", {})` followed by `article.get(...)`).
Each field is `none` when the key is absent. -/
structure RawArticle where
  title : Option JVal
  link : Option JVal
  source : Option JVal
deriving DecidableEq, Repr

/-- A raw backend mention record as read by `app.py`'s `fetch_mentions`
normalization loop (lines 58-68).  Only the keys that loop touches are
modelled; `none` means the key is absent from the JSON object. -/
structure RawMentionA where
  article : Option RawArticle
  summary : Option JVal
  sentiment : Option JVal
  risk_score : Option JVal
  id : Option JVal
  article_id : Option JVal
deriving DecidableEq, Repr

/-- The normalized record produced by `app.py`'s loop: every listed key is
present afterwards, holding whatever JSON value the assignments produced. -/
structure MentionA where
  title : JVal
  url : JVal
  source : JVal
  summary : JVal
  sentiment : JVal
  risk_score : JVal
  id : JVal
  article_id : JVal
deriving DecidableEq, Repr

/-- The normalization performed on each element of the response inside
`app.py`'s `fetch_mentions` (lines 58-68): `article = d.get("article", {})`,
then `d["title"] = article.get("title", "(untitled)")`,
`d["url"] = article.get("link", "")`, `d["source"] = article.get("source",
"Unknown")`, `d["summary"] = d.get("summary", "")`, `d["sentiment"] =
d.get("sentiment", "neutral")`, `d["risk_score"] = d.get("risk_score", 0.0)`,
`d["id"] = d.get("id", 0)`, `d["article_id"] = d.get("article_id", 0)`.
Python's `dict.get(k, default)` returns the stored value whenever the key is
present - including a stored `null` - and the default only when the key is
absent, which is exactly `Option.getD`. -/
def normalizeApp (d : RawMentionA) : MentionA :=
  let article := d.article.getD ⟨none, none, none⟩
  { title := article.title.getD (JVal.str "(untitled)")
    url := article.link.getD (JVal.str "")
    source := article.source.getD (JVal.str "Unknown")
    summary := d.summary.getD (JVal.str "")
    sentiment := d.sentiment.getD (JVal.str "neutral")
    risk_score := d.risk_score.getD (JVal.num 0)
    id := d.id.getD (JVal.num 0)
    article_id := d.article_id.getD (JVal.num 0) }

/-- The argument tuple of `fetch_mentions(limit, source, sentiment, flagged)`
in `app.py`.  `@st.cache_data` keys its memo table on exactly this tuple. -/
structure Query where
  limit : Nat
  source : Option String
  sentiment : Option String
  flagged : Option Bool
deriving DecidableEq, Repr

/-- One stored memo entry: the value `fetch_mentions` returned together with
the time it was stored. -/
structure CacheEntry where
  records : List MentionA
  fetched_at : Nat
deriving DecidableEq, Repr

/-- The memo table `@st.cache_data(ttl=60)` keeps for `fetch_mentions`:
at most one entry per distinct argument tuple. -/
def Cache : Type := Query → Option CacheEntry

/-- The empty memo table (no query has been fetched). -/
def emptyCache : Cache := fun _ => none

/-- Everything one call of the cached `fetch_mentions` produces: the
returned records, the memo table afterwards, whether the function body (and
hence the network request) actually ran, and the error message surfaced to
the session (`st.session_state["_fetch_error"]`), if any. -/
structure FetchOutcome where
  records : List MentionA
  cache : Cache
  fetcherCalled : Bool
  surfacedError : Option String

/-- The body of `app.py`'s `fetch_mentions` (lines 53-72), run on a cache
miss: `requests.get(...)`/`raise_for_status`/`json()` is the `fetcher`
oracle; on success every element is normalized and the list returned, on any
exception the handler stores the message in the session state and returns
`[]`.  Either way the *returned value* is what `st.cache_data` stores. -/
def fetchFresh (cache : Cache) (now : Nat) (q : Query)
    (fetcher : Query → Except String (List RawMentionA)) : FetchOutcome :=
  match fetcher q with
  | .ok data =>
      let recs := data.map normalizeApp
      ⟨recs, fun q' => if q' = q then some ⟨recs, now⟩ else cache q', true, none⟩
  | .error e =>
      ⟨[], fun q' => if q' = q then some ⟨[], now⟩ else cache q', true, some e⟩

/-- `fetch_mentions` as called through `@st.cache_data(ttl=60)` (spec §4.2):
if the memo table holds an entry for this argument tuple whose age is below
60 seconds, its stored records are returned without running the body;
otherwise the body runs (issuing the network request) and its return value
is stored with the current time. -/
def fetch_mentions (cache : Cache) (now : Nat) (q : Query)
    (fetcher : Query → Except String (List RawMentionA)) : FetchOutcome :=
  match cache q with
  | some entry =>
      if now - entry.fetched_at < 60 then ⟨entry.records, cache, false, none⟩
      else fetchFresh cache now q fetcher
  | none => fetchFresh cache now q fetcher

example :
    (fetch_mentions emptyCache 0 ⟨50, none, none, none⟩
      (fun _ => .ok [])).fetcherCalled = true := by rfl

example :
    ((fetch_mentions emptyCache 0 ⟨50, none, none, none⟩
      (fun _ => .error "boom")).cache ⟨50, none, none, none⟩) = some ⟨[], 0⟩ := by
  simp [fetch_mentions, emptyCache, fetchFresh]

/-- C1: for every query tuple (limit, source, sentiment, flagged), two
invocations of `fetch_mentions` with equal arguments within the 60-second
TTL window issue exactly one network request: the first (a miss) runs the
fetcher, the second returns the stored entry's records without invoking the
fetcher (even a different fetcher `g`), leaving the memo table unchanged. -/
theorem c1_second_call_within_ttl_is_cache_hit (c0 : Cache) (t0 t1 : Nat) (q : Query)
    (f g : Query → Except String (List RawMentionA))
    (hmiss : c0 q = none) (h1 : t1 - t0 < 60) :
    (fetch_mentions c0 t0 q f).fetcherCalled = true ∧
    (fetch_mentions (fetch_mentions c0 t0 q f).cache t1 q g).fetcherCalled = false ∧
    (fetch_mentions (fetch_mentions c0 t0 q f).cache t1 q g).records
      = (fetch_mentions c0 t0 q f).records ∧
    (fetch_mentions (fetch_mentions c0 t0 q f).cache t1 q g).cache
      = (fetch_mentions c0 t0 q f).cache := by
  cases hf : f q with
  | ok data => simp [fetch_mentions, hmiss, fetchFresh, hf, h1]
  | error e => simp [fetch_mentions, hmiss, fetchFresh, hf, h1]

/-- C1 witness: the cache-hit theorem at a concrete query, times 0 and 30,
and a concrete fetcher. -/
theorem c1_second_call_within_ttl_is_cache_hit_witness :
    (emptyCache ⟨50, none, none, none⟩ = none) ∧ (30 - 0 < 60) ∧
    ((fetch_mentions emptyCache 0 ⟨50, none, none, none⟩ (fun _ => .ok [])).fetcherCalled = true ∧
     (fetch_mentions (fetch_mentions emptyCache 0 ⟨50, none, none, none⟩ (fun _ => .ok [])).cache
        30 ⟨50, none, none, none⟩ (fun _ => .ok [])).fetcherCalled = false ∧
     (fetch_mentions (fetch_mentions emptyCache 0 ⟨50, none, none, none⟩ (fun _ => .ok [])).cache
        30 ⟨50, none, none, none⟩ (fun _ => .ok [])).records
       = (fetch_mentions emptyCache 0 ⟨50, none, none, none⟩ (fun _ => .ok [])).records ∧
     (fetch_mentions (fetch_mentions emptyCache 0 ⟨50, none, none, none⟩ (fun _ => .ok [])).cache
        30 ⟨50, none, none, none⟩ (fun _ => .ok [])).cache
       = (fetch_mentions emptyCache 0 ⟨50, none, none, none⟩ (fun _ => .ok [])).cache) :=
  ⟨rfl, by decide,
   c1_second_call_within_ttl_is_cache_hit emptyCache 0 30 ⟨50, none, none, none⟩
     (fun _ => .ok []) (fun _ => .ok []) rfl (by decide)⟩

/-- C2 counterexample: the failure outcome IS stored in the cache.  Starting
from the empty memo table, a fetch whose fetcher fails with "boom" stores the
entry `([], 0)` for the query; a second call 30 seconds later, with a fetcher
that would now succeed with a record, performs no network request and returns
the cached empty failure result - there is no last-known-good recovery. -/
theorem c2_counterexample :
    ((fetch_mentions emptyCache 0 ⟨50, none, none, none⟩ (fun _ => .error "boom")).cache
        ⟨50, none, none, none⟩ = some ⟨[], 0⟩) ∧
    (fetch_mentions
        (fetch_mentions emptyCache 0 ⟨50, none, none, none⟩ (fun _ => .error "boom")).cache
        30 ⟨50, none, none, none⟩
        (fun _ => .ok [⟨none, some (JVal.str "good"), none, none, none, none⟩])).fetcherCalled
      = false ∧
    (fetch_mentions
        (fetch_mentions emptyCache 0 ⟨50, none, none, none⟩ (fun _ => .error "boom")).cache
        30 ⟨50, none, none, none⟩
        (fun _ => .ok [⟨none, some (JVal.str "good"), none, none, none, none⟩])).records
      = [] := by
  refine ⟨?_, ?_, ?_⟩ <;> simp [fetch_mentions, emptyCache, fetchFresh]

/-- C2 amended: when the fetch fails on a cache miss, the error is surfaced
to the caller and an empty record list is returned (never fabricated data),
and entries for other queries are untouched; but the empty failure result is
stored in the memo table under this query with the current time, to be served
for the TTL like a success. -/
theorem c2_failure_surfaced_empty_but_cached (c : Cache) (now : Nat) (q : Query)
    (f : Query → Except String (List RawMentionA)) (e : String)
    (hmiss : c q = none) (hf : f q = .error e) :
    (fetch_mentions c now q f).records = [] ∧
    (fetch_mentions c now q f).surfacedError = some e ∧
    (fetch_mentions c now q f).cache q = some ⟨[], now⟩ ∧
    ∀ q', q' ≠ q → (fetch_mentions c now q f).cache q' = c q' := by
  refine ⟨?_, ?_, ?_, ?_⟩ <;> simp [fetch_mentions, hmiss, fetchFresh, hf]
  intro q' hq'
  simp [hq']

/-- C2 witness: the amended failure-path theorem at a concrete query and a
concretely failing fetcher. -/
theorem c2_failure_surfaced_empty_but_cached_witness :
    (emptyCache ⟨10, none, none, none⟩ = none) ∧
    ((fun _ : Query => (.error "down" : Except String (List RawMentionA))) ⟨10, none, none, none⟩
       = .error "down") ∧
    ((fetch_mentions emptyCache 5 ⟨10, none, none, none⟩ (fun _ => .error "down")).records = [] ∧
     (fetch_mentions emptyCache 5 ⟨10, none, none, none⟩ (fun _ => .error "down")).surfacedError
       = some "down" ∧
     (fetch_mentions emptyCache 5 ⟨10, none, none, none⟩ (fun _ => .error "down")).cache
        ⟨10, none, none, none⟩ = some ⟨[], 5⟩ ∧
     ∀ q', q' ≠ ⟨10, none, none, none⟩ →
       (fetch_mentions emptyCache 5 ⟨10, none, none, none⟩ (fun _ => .error "down")).cache q'
         = emptyCache q') :=
  ⟨rfl, rfl,
   c2_failure_surfaced_empty_but_cached emptyCache 5 ⟨10, none, none, none⟩
     (fun _ => .error "down") "down" rfl rfl⟩

/-- Python's `str.lower()` on the ASCII range, character by character. -/
def str_lower (s : String) : String :=
  String.mk (s.toList.map Char.toLower)

/-- Whether the first list is a prefix of the second, as booleans on
character lists. -/
def isPrefixL : List Char → List Char → Bool
  | [], _ => true
  | _ :: _, [] => false
  | a :: as, b :: bs => a == b && isPrefixL as bs

/-- Python's `str.startswith(pre)`: `startswith s pre` is true when `s`
begins with `pre`. -/
def startswith (s pre : String) : Bool :=
  isPrefixL pre.toList s.toList

/-- Characters CPython's `urlsplit` accepts inside a URL scheme. -/
def isSchemeChar (c : Char) : Bool :=
  c.isAlphanum || c == '+' || c == '-' || c == '.'

/-- Split a character list at its first ':', returning the parts before and
after it, or `none` when there is no colon. -/
def splitAtColon : List Char → Option (List Char × List Char)
  | [] => none
  | c :: cs =>
      if c = ':' then some ([], cs)
      else (splitAtColon cs).map (fun p => (c :: p.1, p.2))

/-- The scheme-removal step of `urllib.parse.urlparse`: when the text up to
the first ':' is a nonempty run of scheme characters starting with a letter,
the scheme and the colon are dropped; otherwise the input is unchanged. -/
def stripSchemeL (cs : List Char) : List Char :=
  match splitAtColon cs with
  | some (pre, post) =>
      match pre with
      | [] => cs
      | c :: rest =>
          if c.isAlpha && (c :: rest).all isSchemeChar then post else cs
  | none => cs

/-- After the scheme, `urlparse` reads the netloc only when the remainder
starts with "//": the characters up to the next '/', '?' or '#'. -/
def takeNetloc (cs : List Char) : List Char :=
  cs.takeWhile (fun c => !(c == '/') && !(c == '?') && !(c == '#'))

/-- The `.netloc` of `urllib.parse.urlparse(url)` for string input: strip a
well-formed "scheme:" prefix, then read the host part after a leading "//";
a URL with no "//" has an empty netloc. -/
def urlparse_netloc (url : String) : String :=
  match stripSchemeL url.toList with
  | '/' :: '/' :: rest => String.mk (takeNetloc rest)
  | _ => ""

/-- Python's `str.lstrip("www.")`: removes the longest leading run of
characters drawn from the SET `{'w', '.'}` - not the prefix "www." as a
word.  This is the exact semantics of the call on line 90 of
`1_mentions.py`. -/
def lstrip_www (s : String) : String :=
  String.mk (s.toList.dropWhile (fun c => c == 'w' || c == '.'))

/-- `domain_from_url` from `1_mentions.py` lines 85-92:
`if not url: return "unknown"` then
`return urlparse(url).netloc.lower().lstrip("www.")`.  A `None` argument (as
falsy as `""`) is modelled by the empty string; `urlparse` does not raise on
string input, so the `except` branch returning "unknown" is dead code. -/
def domain_from_url (url : String) : String :=
  if url = "" then "unknown"
  else lstrip_www (str_lower (urlparse_netloc url))

/-- The nested `article` object as read by `1_mentions.py` (lines 44-47).
Its `link` must be a string when present (it is passed to
`domain_from_url`); `title` and `source` may be any JSON scalar. -/
structure RawArticleP where
  title : Option JVal
  link : Option String
  source : Option JVal
deriving DecidableEq, Repr

/-- A raw backend mention record as read by the normalization loop of
`1_mentions.py` `fetch_mentions` (lines 43-59).  `summary` must be a string
when present (the code calls `.startswith` on it); other fields may hold any
JSON scalar, `none` meaning the key is absent. -/
structure RawMentionP where
  article : Option RawArticleP
  summary : Option String
  sentiment : Option JVal
  sentiment_confidence : Option JVal
  risk_score : Option JVal
  id : Option JVal
  article_id : Option JVal
  flagged : Option JVal
  flag_reason : Option JVal
  flagged_at : Option JVal
deriving DecidableEq, Repr

/-- The normalized record produced by the `1_mentions.py` loop, including
the `raw_summary` debug field it adds. -/
structure MentionP where
  title : JVal
  link : String
  source : JVal
  summary : String
  raw_summary : String
  sentiment : JVal
  sentiment_confidence : JVal
  risk_score : JVal
  id : JVal
  article_id : JVal
  flagged : JVal
  flag_reason : JVal
  flagged_at : JVal
deriving DecidableEq, Repr

/-- The normalization performed on each element inside `1_mentions.py`'s
`fetch_mentions` (lines 43-59): `article = m.get("article", {})`, the
title/link lifted from it with defaults, `m["source"] =
article.get("source") or domain_from_url(m["link"])` (Python `or`:
the left operand when truthy, else the right), the summary replaced by
"(No summary available)" exactly when `raw_summary.startswith(("http://",
"https://"))`, and every remaining field read with `dict.get(key, default)`
- which returns a present value (including `null`) unchanged and the
default only for an absent key. -/
def normalizeMentions (m : RawMentionP) : MentionP :=
  let article := m.article.getD ⟨none, none, none⟩
  let link := article.link.getD ""
  let raw_summary := m.summary.getD ""
  { title := article.title.getD (JVal.str "(untitled)")
    link := link
    source :=
      let s := article.source.getD JVal.null
      if pyTruthy s then s else JVal.str (domain_from_url link)
    summary :=
      if startswith raw_summary "http://" || startswith raw_summary "https://" then
        "(No summary available)"
      else raw_summary
    raw_summary := raw_summary
    sentiment := m.sentiment.getD (JVal.str "neutral")
    sentiment_confidence := m.sentiment_confidence.getD (JVal.num 0)
    risk_score := m.risk_score.getD (JVal.num 0)
    id := m.id.getD (JVal.num 0)
    article_id := m.article_id.getD (JVal.num 0)
    flagged := m.flagged.getD (JVal.bool false)
    flag_reason := m.flag_reason.getD (JVal.str "")
    flagged_at := m.flagged_at.getD JVal.null }

example : domain_from_url "https://wsj.com/article" = "sj.com" := by decide

/-- C3 counterexample: the dashboard normalization (`app.py` line 64, one of
the claim's two cited normalizers) performs no URL check at all: the raw
record whose `summary` is the well-formed absolute URL
"http://example.com/x" - the claim's own example - normalizes to the literal
URL, not to a "no summary" sentinel, and that summary is what the dashboard
renders as body text. -/
theorem c3_counterexample :
    (normalizeApp ⟨none, some (JVal.str "http://example.com/x"),
        none, none, none, none⟩).summary = JVal.str "http://example.com/x" ∧
    (normalizeApp ⟨none, some (JVal.str "http://example.com/x"),
        none, none, none, none⟩).summary ≠ JVal.str "(No summary available)" :=
  ⟨rfl, by decide⟩

/-- C3 amended: in the mentions-page normalization (`1_mentions.py` lines
48-51), any summary string beginning with "http://" or "https://" - hence
every well-formed absolute http/https URL - is replaced by the sentinel
"(No summary available)"; the dashboard normalization in `app.py` performs
no such replacement and keeps the literal URL as the summary. -/
theorem c3_url_summary_replaced_by_sentinel (m : RawMentionP) (s : String)
    (hs : m.summary = some s)
    (hurl : startswith s "http://" = true ∨ startswith s "https://" = true) :
    (normalizeMentions m).summary = "(No summary available)" := by
  rcases hurl with h | h <;> simp [normalizeMentions, hs, h]

/-- C3 witness: the sentinel theorem at the claim's example record
`{summary: "http://example.com/x"}`. -/
theorem c3_url_summary_replaced_by_sentinel_witness :
    ((⟨none, some "http://example.com/x", none, none, none, none, none, none,
        none, none⟩ : RawMentionP).summary = some "http://example.com/x") ∧
    (startswith "http://example.com/x" "http://" = true ∨
      startswith "http://example.com/x" "https://" = true) ∧
    (normalizeMentions ⟨none, some "http://example.com/x", none, none, none,
        none, none, none, none, none⟩).summary = "(No summary available)" :=
  ⟨rfl, Or.inl (by decide),
   c3_url_summary_replaced_by_sentinel
     ⟨none, some "http://example.com/x", none, none, none, none, none, none,
        none, none⟩
     "http://example.com/x" rfl (Or.inl (by decide))⟩

/-- C4 counterexample: a present-but-`null` numeric field is NOT coerced to
its numeric default.  `dict.get("risk_score", 0.0)` returns the stored
`null` unchanged, so the dashboard normalizer propagates `null` (and the
mentions-page normalizer does the same for `sentiment_confidence`),
contradicting the claim that null numeric fields coerce to their defaults
rather than reaching aggregation. -/
theorem c4_counterexample :
    (normalizeApp ⟨none, none, none, some JVal.null, none, none⟩).risk_score
      = JVal.null ∧
    JVal.null ≠ JVal.num 0 ∧
    (normalizeMentions ⟨none, none, none, some JVal.null, some JVal.null,
        none, none, none, none, none⟩).sentiment_confidence = JVal.null ∧
    (normalizeMentions ⟨none, none, none, some JVal.null, some JVal.null,
        none, none, none, none, none⟩).risk_score = JVal.null :=
  ⟨rfl, fun h => JVal.noConfusion h, rfl, rfl⟩

/-- C4 amended: normalization is total and missing keys do fall back to the
documented defaults (the all-absent record maps to exactly the default
record in both normalizers), but a numeric field that is PRESENT with any
value - `null` and non-numeric values included - is passed through
unchanged: defaults apply only to absent keys, so `null` risk scores and
confidences propagate into aggregation. -/
theorem c4_defaults_only_for_absent_keys (d d2 : RawMentionA) (p : RawMentionP)
    (v w : JVal) (hd : d.risk_score = some v)
    (hp : p.sentiment_confidence = some w) (hd2 : d2.risk_score = none) :
    (normalizeApp d).risk_score = v ∧
    (normalizeMentions p).sentiment_confidence = w ∧
    (normalizeApp d2).risk_score = JVal.num 0 ∧
    normalizeApp ⟨none, none, none, none, none, none⟩ =
      ⟨JVal.str "(untitled)", JVal.str "", JVal.str "Unknown", JVal.str "",
       JVal.str "neutral", JVal.num 0, JVal.num 0, JVal.num 0⟩ ∧
    normalizeMentions ⟨none, none, none, none, none, none, none, none, none,
        none⟩ =
      ⟨JVal.str "(untitled)", "", JVal.str "unknown", "", "",
       JVal.str "neutral", JVal.num 0, JVal.num 0, JVal.num 0, JVal.num 0,
       JVal.bool false, JVal.str "", JVal.null⟩ := by
  refine ⟨?_, ?_, ?_, ?_, ?_⟩
  · simp [normalizeApp, hd]
  · simp [normalizeMentions, hp]
  · simp [normalizeApp, hd2]
  · rfl
  · rfl

/-- C4 witness: the amended theorem at concrete records - one with a `null`
risk score, one with a `null` confidence, one with the key absent. -/
theorem c4_defaults_only_for_absent_keys_witness :
    ((⟨none, none, none, some JVal.null, none, none⟩ : RawMentionA).risk_score
        = some JVal.null) ∧
    ((⟨none, none, none, some (JVal.str "high"), none, none, none, none, none,
        none⟩ : RawMentionP).sentiment_confidence = some (JVal.str "high")) ∧
    ((⟨none, none, none, none, none, none⟩ : RawMentionA).risk_score = none) ∧
    ((normalizeApp ⟨none, none, none, some JVal.null, none, none⟩).risk_score
        = JVal.null ∧
     (normalizeMentions ⟨none, none, none, some (JVal.str "high"), none, none,
        none, none, none, none⟩).sentiment_confidence = JVal.str "high" ∧
     (normalizeApp ⟨none, none, none, none, none, none⟩).risk_score
        = JVal.num 0 ∧
     normalizeApp ⟨none, none, none, none, none, none⟩ =
       ⟨JVal.str "(untitled)", JVal.str "", JVal.str "Unknown", JVal.str "",
        JVal.str "neutral", JVal.num 0, JVal.num 0, JVal.num 0⟩ ∧
     normalizeMentions ⟨none, none, none, none, none, none, none, none, none,
        none⟩ =
       ⟨JVal.str "(untitled)", "", JVal.str "unknown", "", "",
        JVal.str "neutral", JVal.num 0, JVal.num 0, JVal.num 0, JVal.num 0,
        JVal.bool false, JVal.str "", JVal.null⟩) :=
  ⟨rfl, rfl, rfl,
   c4_defaults_only_for_absent_keys
     ⟨none, none, none, some JVal.null, none, none⟩
     ⟨none, none, none, none, none, none⟩
     ⟨none, none, none, some (JVal.str "high"), none, none, none, none, none,
        none⟩
     JVal.null (JVal.str "high") rfl rfl rfl⟩

/-- C5: evaluating `domain_from_url` at its failing inputs.  The code's
`lstrip("www.")` removes every leading character drawn from the set
`{'w', '.'}`, so the host "wsj.com" loses its leading 'w' and becomes
"sj.com" instead of staying "wsj.com" as the claim requires; hosts that do
start with a "www." label happen to come out right, and an empty/absent URL
yields "unknown". -/
theorem c5_lstrip_eats_leading_host_letters :
    domain_from_url "https://wsj.com/article" = "sj.com" ∧
    domain_from_url "https://www.example.com/x" = "example.com" ∧
    domain_from_url "" = "unknown" ∧
    ("sj.com" : String) ≠ "wsj.com" := by
  refine ⟨by decide, by decide, rfl, by decide⟩

/-- Metacharacters of Python `re` patterns other than the '.' wildcard. -/
def isRegexMeta (c : Char) : Bool :=
  c == '\\' || c == '^' || c == '$' || c == '*' || c == '+' || c == '?' ||
  c == '\x7b' || c == '\x7d' || c == '[' || c == ']' || c == '(' ||
  c == ')' || c == '|'

/-- One token of a parsed regex pattern: a literal character or the '.'
wildcard. -/
inductive RTok where
  | lit (c : Char)
  | dot
deriving DecidableEq, Repr

/-- Parse a regex pattern drawn from the fragment of literal characters and
the '.' wildcard; patterns using any other metacharacter are outside the
modelled fragment and yield `none`. -/
def parsePat : List Char → Option (List RTok)
  | [] => some []
  | c :: cs =>
      if c == '.' then (parsePat cs).map (fun ts => RTok.dot :: ts)
      else if isRegexMeta c then none
      else (parsePat cs).map (fun ts => RTok.lit c :: ts)

/-- Whether one pattern token matches one character. -/
def tokMatches : RTok → Char → Bool
  | .lit c, d => c == d
  | .dot, _ => true

/-- Whether the pattern matches at the very start of the text. -/
def matchHere : List RTok → List Char → Bool
  | [], _ => true
  | _ :: _, [] => false
  | t :: ts, d :: ds => tokMatches t d && matchHere ts ds

/-- `re.search`: whether the pattern matches at some position of the text. -/
def reSearch (toks : List RTok) : List Char → Bool
  | [] => matchHere toks []
  | d :: ds => matchHere toks (d :: ds) || reSearch toks ds

/-- pandas `Series.str.contains(pat, case=False, na=False)` as used on lines
162-166 of `app.py`, with its default `regex=True`: a case-insensitive
`re.search` of `pat` in the cell (modelled by lowercasing both sides, the
ASCII content of these feeds).  Faithful exactly on the regex fragment of
literal characters and the '.' wildcard (`parsePat` succeeds); the `none`
branch is a total stand-in for the patterns OUTSIDE that fragment, where the
real call matches the full regular expression (valid patterns such as
"a|b") or raises `re.error` (invalid patterns such as "["), aborting the
filter step.  Every theorem about the filter therefore restricts its
pattern arguments to the fragment (`inPatFragment`) or to the empty string,
so no statement depends on this stand-in branch. -/
def str_contains (s pat : String) : Bool :=
  match parsePat (str_lower pat).toList with
  | some toks => reSearch toks (str_lower s).toList
  | none => false

/-- Whether a pattern lies inside the regex fragment the embedding models
faithfully: after lowercasing it parses as literals and '.' wildcards
only.  Outside it pandas matches the full regular expression, or raises
`re.error` on an invalid pattern so the filter step fails instead of
returning rows - behavior the embedding does not model. -/
def inPatFragment (pat : String) : Bool :=
  (parsePat (str_lower pat).toList).isSome

/-- Substring search on character lists: whether `needle` occurs
contiguously in the text. -/
def substrSearch (needle : List Char) : List Char → Bool
  | [] => isPrefixL needle []
  | c :: cs => isPrefixL needle (c :: cs) || substrSearch needle cs

/-- Case-insensitive substring containment - the relation the spec's words
"contains the text, case-insensitively, as a substring" denote. -/
def containsCI (hay needle : String) : Bool :=
  substrSearch (str_lower needle).toList (str_lower hay).toList

/-- The canonical Mention record (spec §3): the typed view of a normalized
row as consumed by the dashboard's filter, pagination and statistics code.
Float fields are modelled as exact rationals. -/
structure Mention where
  id : Nat
  title : String
  url : String
  source : String
  summary : String
  sentiment : String
  risk_score : ℚ
  flagged : Bool
deriving DecidableEq, Repr

/-- The sentiment criterion of `app.py` line 160:
`filtered['sentiment'].isin(sentiment)`. -/
def sentimentPred (sentiment : List String) (m : Mention) : Bool :=
  sentiment.contains m.sentiment

/-- The source criterion of `app.py` line 162:
`filtered['source'].str.contains(source_q, case=False, na=False)`. -/
def sourcePred (source_q : String) (m : Mention) : Bool :=
  str_contains m.source source_q

/-- The free-text criterion of `app.py` lines 164-166: title OR summary
contains the query, case-insensitively. -/
def textPred (query : String) (m : Mention) : Bool :=
  str_contains m.title query || str_contains m.summary query

/-- The client-side filter block of `app.py` lines 157-167: starting from a
copy of the frame, each non-empty criterion (`if sentiment:`, `if
source_q:`, `if query:`) narrows the rows by a boolean mask, preserving row
order. -/
def filtered (df : List Mention) (sentiment : List String)
    (source_q query : String) : List Mention :=
  let f1 := if sentiment.isEmpty then df else df.filter (sentimentPred sentiment)
  let f2 := if source_q = "" then f1 else f1.filter (sourcePred source_q)
  if query = "" then f2 else f2.filter (textPred query)

theorem skip_or_filter_sublist (c : Prop) [Decidable c] (l : List Mention)
    (p : Mention → Bool) : (if c then l else l.filter p).Sublist l := by
  split
  · exact List.Sublist.refl l
  · exact List.filter_sublist l

theorem mem_of_mem_skip_or_filter {c : Prop} [Decidable c] {l : List Mention}
    {p : Mention → Bool} {m : Mention}
    (h : m ∈ (if c then l else l.filter p)) : m ∈ l := by
  split at h
  · exact h
  · exact List.mem_of_mem_filter h

theorem pred_of_mem_skip_or_filter {c : Prop} [Decidable c] {l : List Mention}
    {p : Mention → Bool} {m : Mention}
    (h : m ∈ (if c then l else l.filter p)) (hc : ¬c) : p m = true := by
  rw [if_neg hc] at h
  exact (List.mem_filter.mp h).2

theorem filtered_subset {df : List Mention} {s : List String} {sq q : String}
    {m : Mention} (hm : m ∈ filtered df s sq q) :
    m ∈ (if s.isEmpty then df else df.filter (sentimentPred s)) := by
  unfold filtered at hm
  exact mem_of_mem_skip_or_filter (mem_of_mem_skip_or_filter hm)

theorem filtered_mem_sentiment {df : List Mention} {s : List String}
    {sq q : String} {m : Mention} (hm : m ∈ filtered df s sq q)
    (hs : ¬s.isEmpty = true) : sentimentPred s m = true :=
  pred_of_mem_skip_or_filter (filtered_subset hm) hs

theorem filtered_mem_source {df : List Mention} {s : List String}
    {sq q : String} {m : Mention} (hm : m ∈ filtered df s sq q)
    (hsq : ¬sq = "") : sourcePred sq m = true := by
  unfold filtered at hm
  exact pred_of_mem_skip_or_filter (mem_of_mem_skip_or_filter hm) hsq

theorem filtered_mem_text {df : List Mention} {s : List String}
    {sq q : String} {m : Mention} (hm : m ∈ filtered df s sq q)
    (hq : ¬q = "") : textPred q m = true := by
  unfold filtered at hm
  exact pred_of_mem_skip_or_filter hm hq

theorem filtered_sublist (df : List Mention) (s : List String) (sq q : String) :
    (filtered df s sq q).Sublist df := by
  unfold filtered
  exact (skip_or_filter_sublist _ _ _).trans
    ((skip_or_filter_sublist _ _ _).trans (skip_or_filter_sublist _ _ _))

theorem filtered_idem (df : List Mention) (s : List String) (sq q : String) :
    filtered (filtered df s sq q) s sq q = filtered df s sq q := by
  have h1 : (if s.isEmpty then filtered df s sq q
      else (filtered df s sq q).filter (sentimentPred s)) = filtered df s sq q := by
    split
    · rfl
    · next hs => exact List.filter_eq_self.mpr fun m hm => filtered_mem_sentiment hm hs
  have h2 : (if sq = "" then filtered df s sq q
      else (filtered df s sq q).filter (sourcePred sq)) = filtered df s sq q := by
    split
    · rfl
    · next hsq => exact List.filter_eq_self.mpr fun m hm => filtered_mem_source hm hsq
  have h3 : (if q = "" then filtered df s sq q
      else (filtered df s sq q).filter (textPred q)) = filtered df s sq q := by
    split
    · rfl
    · next hq => exact List.filter_eq_self.mpr fun m hm => filtered_mem_text hm hq
  conv_lhs => rw [filtered]
  rw [h1, h2, h3]

theorem parsePat_literal (cs : List Char)
    (h : cs.all (fun c => !isRegexMeta c && !(c == '.')) = true) :
    parsePat cs = some (cs.map RTok.lit) := by
  induction cs with
  | nil => rfl
  | cons c cs ih =>
      rw [List.all_cons, Bool.and_eq_true] at h
      obtain ⟨hc, ht⟩ := h
      rw [Bool.and_eq_true] at hc
      obtain ⟨hm, hd⟩ := hc
      simp only [Bool.not_eq_true'] at hm hd
      simp [parsePat, hd, hm, ih ht]

theorem matchHere_lit (needle : List Char) : ∀ cs : List Char,
    matchHere (needle.map RTok.lit) cs = isPrefixL needle cs := by
  induction needle with
  | nil => intro cs; rfl
  | cons a as ih =>
      intro cs
      cases cs with
      | nil => rfl
      | cons b bs => simp [matchHere, isPrefixL, tokMatches, ih bs]

theorem reSearch_lit (needle : List Char) : ∀ hay : List Char,
    reSearch (needle.map RTok.lit) hay = substrSearch needle hay := by
  intro hay
  induction hay with
  | nil => simp [reSearch, substrSearch, matchHere_lit]
  | cons c cs ih => simp [reSearch, substrSearch, matchHere_lit, ih]

theorem str_contains_eq_containsCI (s pat : String)
    (h : (str_lower pat).toList.all (fun c => !isRegexMeta c && !(c == '.')) = true) :
    str_contains s pat = containsCI s pat := by
  unfold str_contains containsCI
  rw [parsePat_literal _ h]
  exact reSearch_lit _ _

/-- C6 counterexample: with the free text "." the filter keeps a record
whose title "abc" and summary "xyz" do not contain "." as a substring at
all - pandas `str.contains` treats the text as a regular expression (its
default `regex=True`), and the '.' wildcard matches any character, so the
claim's "keeps exactly the records whose title or normalized summary
contains the text as a substring" is false as stated. -/
theorem c6_counterexample :
    filtered [⟨1, "abc", "", "src", "xyz", "neutral", 0, false⟩] [] "" "."
      = [⟨1, "abc", "", "src", "xyz", "neutral", 0, false⟩] ∧
    containsCI "abc" "." = false ∧
    containsCI "xyz" "." = false := by
  refine ⟨by decide, by decide, by decide⟩

/-- C6 amended: for source and free-text filter texts that are empty or lie
inside the faithfully modelled regex fragment of literals and the '.'
wildcard - every metacharacter-free text in particular - the client-side
filter of `app.py` is a pure, order-preserving AND of the non-empty
criteria: the result is a subsequence of the input and re-applying the same
criteria is the identity on it; and the free-text criterion matches the
text against title and summary as a case-insensitive REGULAR EXPRESSION
(pandas `str.contains` default `regex=True`), which, when the text contains
no regex metacharacter at all (lowercasing maps no character to a
metacharacter, so the condition on the lowered text below is exactly that),
coincides with case-insensitive substring containment.  For texts outside
the fragment nothing is claimed: there pandas matches the full regular
expression, or raises `re.error` on an invalid pattern and the filter step
fails instead of producing rows.  The two fragment hypotheses restrict the
statement to the inputs on which the embedding is faithful; the total model
happens to satisfy the conclusions everywhere, so the proof does not consume
them, but without them the statement would assert behavior of the program
on patterns the model does not capture. -/
theorem c6_filter_subsequence_idempotent_regex (df : List Mention)
    (s : List String) (sq q : String)
    (_hsq : sq = "" ∨ inPatFragment sq = true)
    (_hqf : q = "" ∨ inPatFragment q = true) :
    (filtered df s sq q).Sublist df ∧
    filtered (filtered df s sq q) s sq q = filtered df s sq q ∧
    (q ≠ "" →
      (str_lower q).toList.all (fun c => !isRegexMeta c && !(c == '.')) = true →
      filtered df s sq q = (filtered df s sq "").filter
        (fun m => containsCI m.title q || containsCI m.summary q)) := by
  refine ⟨filtered_sublist df s sq q, filtered_idem df s sq q, ?_⟩
  intro hq hlit
  unfold filtered
  rw [if_neg hq, if_pos rfl]
  exact List.filter_congr fun m _ => by
    unfold textPred
    rw [str_contains_eq_containsCI _ _ hlit, str_contains_eq_containsCI _ _ hlit]

/-- C6 witness: the filter theorem at a concrete two-record frame with the
empty source text and the literal free text "alp" (inside the modelled
fragment), all hypotheses discharged. -/
theorem c6_filter_subsequence_idempotent_regex_witness :
    (filtered [⟨1, "Alpha", "", "wsj.com", "", "positive", 0, false⟩,
        ⟨2, "beta", "", "bbc.co.uk", "", "negative", 0, false⟩] [] "" "alp").Sublist
      [⟨1, "Alpha", "", "wsj.com", "", "positive", 0, false⟩,
        ⟨2, "beta", "", "bbc.co.uk", "", "negative", 0, false⟩] ∧
    filtered (filtered [⟨1, "Alpha", "", "wsj.com", "", "positive", 0, false⟩,
        ⟨2, "beta", "", "bbc.co.uk", "", "negative", 0, false⟩] [] "" "alp") [] "" "alp"
      = filtered [⟨1, "Alpha", "", "wsj.com", "", "positive", 0, false⟩,
        ⟨2, "beta", "", "bbc.co.uk", "", "negative", 0, false⟩] [] "" "alp" ∧
    filtered [⟨1, "Alpha", "", "wsj.com", "", "positive", 0, false⟩,
        ⟨2, "beta", "", "bbc.co.uk", "", "negative", 0, false⟩] [] "" "alp"
      = (filtered [⟨1, "Alpha", "", "wsj.com", "", "positive", 0, false⟩,
          ⟨2, "beta", "", "bbc.co.uk", "", "negative", 0, false⟩] [] "" "").filter
          (fun m => containsCI m.title "alp" || containsCI m.summary "alp") :=
  ⟨(c6_filter_subsequence_idempotent_regex _ [] "" "alp" (Or.inl rfl)
      (Or.inr (by decide))).1,
   (c6_filter_subsequence_idempotent_regex _ [] "" "alp" (Or.inl rfl)
      (Or.inr (by decide))).2.1,
   (c6_filter_subsequence_idempotent_regex _ [] "" "alp" (Or.inl rfl)
      (Or.inr (by decide))).2.2 (by decide) (by decide)⟩

/-- C10: when every filter criterion is empty - empty sentiment selection
(so `if sentiment:` is falsy and the sentiment mask is skipped, showing all
records rather than matching none), empty source text and empty search text
- the filter block is the identity on the record list. -/
theorem c10_all_empty_criteria_filter_is_identity (df : List Mention) :
    filtered df [] "" "" = df := by
  simp [filtered]

/-- `max_page` from `app.py` line 173: `max(1, (len(filtered) - 1) //
per_page + 1)`, with Python's `//` being floor division on integers
(`Int.fdiv`); the result is at least 1, so it is read back as a natural
number. -/
def max_page (n per_page : Nat) : Nat :=
  (max 1 (Int.fdiv ((n : ℤ) - 1) (per_page : ℤ) + 1)).toNat

/-- The page slice of `app.py` lines 175-177: `start = (page - 1) *
per_page`, `end = start + per_page`, `page_df = filtered.iloc[start:end]`,
for the 1-indexed pages the page widget supplies. -/
def page_df (records : List Mention) (per_page page : Nat) : List Mention :=
  (records.drop ((page - 1) * per_page)).take per_page

/-- Modelled from the spec: the page widget `st.number_input("Page",
min_value=1, max_value=max_page, value=1, step=1)` on line 174 of `app.py`
is rendered by Streamlit, not by repository code; per spec §4.4 a requested
page number outside `[1, max_page]` is clamped into that range before
slicing rather than raising. -/
def clampPage (page maxp : Nat) : Nat := max 1 (min page maxp)

theorem max_page_eq_ceil (n P : Nat) (hP : 0 < P) :
    max_page n P = max 1 ((n + P - 1) / P) := by
  obtain ⟨p, rfl⟩ : ∃ p, P = p + 1 := ⟨P - 1, by omega⟩
  unfold max_page
  cases n with
  | zero =>
      have h1 : ((0 : ℕ) : ℤ) - 1 = Int.negSucc 0 := by decide
      rw [h1]
      have h2 : Int.fdiv (Int.negSucc 0) (((p + 1 : ℕ)) : ℤ) = Int.negSucc (0 / (p + 1)) := rfl
      rw [h2, Nat.zero_div]
      have h3 : (0 + (p + 1) - 1) / (p + 1) = 0 := Nat.div_eq_of_lt (by omega)
      rw [h3]
      decide
  | succ m =>
      have h1 : ((m + 1 : ℕ) : ℤ) - 1 = ((m : ℕ) : ℤ) := by push_cast; ring
      rw [h1]
      have h2 : Int.fdiv ((m : ℕ) : ℤ) (((p + 1 : ℕ)) : ℤ) = ((m / (p + 1) : ℕ) : ℤ) := by
        cases m with
        | zero => rw [Nat.zero_div]; rfl
        | succ m0 => rfl
      rw [h2]
      have h3 : (m + 1 + (p + 1) - 1) / (p + 1) = m / (p + 1) + 1 := by
        have : m + 1 + (p + 1) - 1 = m + (p + 1) := by omega
        rw [this, Nat.add_div_right _ (by omega)]
      rw [h3]
      omega

theorem length_le_max_page_mul (n P : Nat) (hP : 0 < P) :
    n ≤ max_page n P * P := by
  rw [max_page_eq_ceil n P hP]
  rcases Nat.eq_zero_or_pos n with rfl | hn
  · simp
  · have hd : 1 ≤ (n + P - 1) / P := (Nat.one_le_div_iff hP).mpr (by omega)
    rw [Nat.max_eq_right hd]
    have h := Nat.div_add_mod (n + P - 1) P
    have hr : (n + P - 1) % P < P := Nat.mod_lt _ hP
    rw [Nat.mul_comm P ((n + P - 1) / P)] at h
    omega

theorem join_pages (P : Nat) : ∀ (k : Nat) (l : List Mention),
    l.length ≤ k * P →
    ((List.range k).map (fun i => (l.drop (i * P)).take P)).flatten = l := by
  intro k
  induction k with
  | zero =>
      intro l h
      simp only [Nat.zero_mul, Nat.le_zero, List.length_eq_zero] at h
      simp [h]
  | succ k ih =>
      intro l h
      rw [List.range_succ_eq_map, List.map_cons, List.map_map]
      have hmap : (List.range k).map ((fun i => (l.drop (i * P)).take P) ∘ Nat.succ)
          = (List.range k).map (fun i => ((l.drop P).drop (i * P)).take P) := by
        apply List.map_congr_left
        intro i _
        simp only [Function.comp]
        rw [List.drop_drop]
        have hsucc : Nat.succ i * P = P + i * P := by
          rw [Nat.succ_mul, Nat.add_comm]
        rw [hsucc]
      rw [hmap, List.flatten_cons]
      rw [ih (l.drop P) (by
        simp only [List.length_drop]
        have hs : (k + 1) * P = k * P + P := Nat.succ_mul k P
        omega)]
      simp only [Nat.zero_mul, List.drop_zero]
      exact List.take_append_drop P l

/-- C7: for every record list and page size P > 0, `max_page` computed by
`app.py` equals `max(1, ceil(len(R) / P))` (the ceiling written as
`(len + P - 1) / P`), the requested page number is clamped into
`[1, max_page]` (never an error), each page is a contiguous window, and
concatenating pages 1 through max_page in order reconstructs the record
list exactly - so every record appears exactly once across the pages. -/
theorem c7_pagination_clamps_and_partitions (records : List Mention)
    (per_page page : Nat) (hP : 0 < per_page) :
    max_page records.length per_page
      = max 1 ((records.length + per_page - 1) / per_page) ∧
    1 ≤ clampPage page (max_page records.length per_page) ∧
    clampPage page (max_page records.length per_page)
      ≤ max_page records.length per_page ∧
    ((List.range (max_page records.length per_page)).map
        (fun i => page_df records per_page (i + 1))).flatten = records := by
  have hceil := max_page_eq_ceil records.length per_page hP
  have hone : 1 ≤ max_page records.length per_page := by
    rw [hceil]; exact Nat.le_max_left _ _
  refine ⟨hceil, Nat.le_max_left _ _, ?_, ?_⟩
  · have : min page (max_page records.length per_page)
        ≤ max_page records.length per_page := Nat.min_le_right _ _
    unfold clampPage
    omega
  · have hlen := length_le_max_page_mul records.length per_page hP
    have hpg : ∀ i, page_df records per_page (i + 1)
        = (records.drop (i * per_page)).take per_page := fun i => rfl
    rw [List.map_congr_left fun i _ => hpg i]
    exact join_pages per_page (max_page records.length per_page) records hlen

/-- C7 witness: the pagination theorem at a concrete five-record list and
page size 2 (max_page = 3). -/
theorem c7_pagination_clamps_and_partitions_witness :
    (0 < 2) ∧
    (max_page ([⟨1, "a", "", "s", "", "neutral", 0, false⟩,
        ⟨2, "b", "", "s", "", "neutral", 0, false⟩,
        ⟨3, "c", "", "s", "", "neutral", 0, false⟩,
        ⟨4, "d", "", "s", "", "neutral", 0, false⟩,
        ⟨5, "e", "", "s", "", "neutral", 0, false⟩] : List Mention).length 2
       = max 1 ((([⟨1, "a", "", "s", "", "neutral", 0, false⟩,
        ⟨2, "b", "", "s", "", "neutral", 0, false⟩,
        ⟨3, "c", "", "s", "", "neutral", 0, false⟩,
        ⟨4, "d", "", "s", "", "neutral", 0, false⟩,
        ⟨5, "e", "", "s", "", "neutral", 0, false⟩] : List Mention).length + 2 - 1) / 2) ∧
     1 ≤ clampPage 9 (max_page ([⟨1, "a", "", "s", "", "neutral", 0, false⟩,
        ⟨2, "b", "", "s", "", "neutral", 0, false⟩,
        ⟨3, "c", "", "s", "", "neutral", 0, false⟩,
        ⟨4, "d", "", "s", "", "neutral", 0, false⟩,
        ⟨5, "e", "", "s", "", "neutral", 0, false⟩] : List Mention).length 2) ∧
     clampPage 9 (max_page ([⟨1, "a", "", "s", "", "neutral", 0, false⟩,
        ⟨2, "b", "", "s", "", "neutral", 0, false⟩,
        ⟨3, "c", "", "s", "", "neutral", 0, false⟩,
        ⟨4, "d", "", "s", "", "neutral", 0, false⟩,
        ⟨5, "e", "", "s", "", "neutral", 0, false⟩] : List Mention).length 2)
       ≤ max_page ([⟨1, "a", "", "s", "", "neutral", 0, false⟩,
        ⟨2, "b", "", "s", "", "neutral", 0, false⟩,
        ⟨3, "c", "", "s", "", "neutral", 0, false⟩,
        ⟨4, "d", "", "s", "", "neutral", 0, false⟩,
        ⟨5, "e", "", "s", "", "neutral", 0, false⟩] : List Mention).length 2 ∧
     ((List.range (max_page ([⟨1, "a", "", "s", "", "neutral", 0, false⟩,
        ⟨2, "b", "", "s", "", "neutral", 0, false⟩,
        ⟨3, "c", "", "s", "", "neutral", 0, false⟩,
        ⟨4, "d", "", "s", "", "neutral", 0, false⟩,
        ⟨5, "e", "", "s", "", "neutral", 0, false⟩] : List Mention).length 2)).map
          (fun i => page_df [⟨1, "a", "", "s", "", "neutral", 0, false⟩,
            ⟨2, "b", "", "s", "", "neutral", 0, false⟩,
            ⟨3, "c", "", "s", "", "neutral", 0, false⟩,
            ⟨4, "d", "", "s", "", "neutral", 0, false⟩,
            ⟨5, "e", "", "s", "", "neutral", 0, false⟩] 2 (i + 1))).flatten
       = [⟨1, "a", "", "s", "", "neutral", 0, false⟩,
          ⟨2, "b", "", "s", "", "neutral", 0, false⟩,
          ⟨3, "c", "", "s", "", "neutral", 0, false⟩,
          ⟨4, "d", "", "s", "", "neutral", 0, false⟩,
          ⟨5, "e", "", "s", "", "neutral", 0, false⟩]) :=
  ⟨by decide,
   c7_pagination_clamps_and_partitions
     [⟨1, "a", "", "s", "", "neutral", 0, false⟩,
      ⟨2, "b", "", "s", "", "neutral", 0, false⟩,
      ⟨3, "c", "", "s", "", "neutral", 0, false⟩,
      ⟨4, "d", "", "s", "", "neutral", 0, false⟩,
      ⟨5, "e", "", "s", "", "neutral", 0, false⟩] 2 9 (by decide)⟩

/-- `total_mentions = len(filtered_mentions)` (`1_mentions.py` line 237). -/
def total_mentions (records : List Mention) : Nat := records.length

/-- `unique_sources = len({m["source"] for m in filtered_mentions if
m["source"] != "unknown"})` (`1_mentions.py` line 238): the cardinality of
the set of sources after dropping the literal "unknown" placeholder. -/
def unique_sources (records : List Mention) : Nat :=
  (((records.map fun m => m.source).filter fun s => !(s == "unknown")).dedup).length

/-- `positive_count = sum(1 for m in filtered_mentions if m["sentiment"] ==
"positive")` (`1_mentions.py` line 239). -/
def positive_count (records : List Mention) : Nat :=
  (records.filter fun m => m.sentiment == "positive").length

/-- `negative_count = sum(1 for m in filtered_mentions if m["sentiment"] ==
"negative")` (`1_mentions.py` line 240). -/
def negative_count (records : List Mention) : Nat :=
  (records.filter fun m => m.sentiment == "negative").length

/-- `avg_risk = sum(m["risk_score"] for m in filtered_mentions) /
max(total_mentions, 1)` (`1_mentions.py` line 241), on exact rationals. -/
def avg_risk (records : List Mention) : ℚ :=
  ((records.map fun m => m.risk_score).sum) / ((max (total_mentions records) 1 : ℕ) : ℚ)

/-- C8: the statistics block satisfies the summarize contract: `total`
equals the length of the given records; a feed in which every record's
source is the literal "unknown" reports `unique_sources = 0` while `total`
stays the length (unknown is excluded from the distinct-source count);
`avg_risk` is the arithmetic mean of `risk_score` for nonempty input and
the `max(total, 1)` denominator never divides by zero; and the empty list
summarizes to all-zero statistics. -/
theorem c8_summarize_contract (records : List Mention) :
    total_mentions records = records.length ∧
    ((∀ m ∈ records, m.source = "unknown") → unique_sources records = 0) ∧
    (records ≠ [] → avg_risk records
        = ((records.map fun m => m.risk_score).sum) / ((records.length : ℕ) : ℚ)) ∧
    total_mentions ([] : List Mention) = 0 ∧
    unique_sources ([] : List Mention) = 0 ∧
    positive_count ([] : List Mention) = 0 ∧
    negative_count ([] : List Mention) = 0 ∧
    avg_risk ([] : List Mention) = 0 := by
  refine ⟨rfl, ?_, ?_, rfl, rfl, rfl, rfl, by simp [avg_risk, total_mentions]⟩
  · intro hall
    unfold unique_sources
    have hnil : ((records.map fun m => m.source).filter fun s => !(s == "unknown")) = [] := by
      rw [List.filter_eq_nil_iff]
      intro s hs
      obtain ⟨m, hm, rfl⟩ := List.mem_map.mp hs
      simp [hall m hm]
    rw [hnil]
    rfl
  · intro hne
    unfold avg_risk total_mentions
    have h1 : 1 ≤ records.length := by
      cases records with
      | nil => exact absurd rfl hne
      | cons a l => simp
    rw [Nat.max_eq_left h1]

/-- C8 witness: the summarize theorem at a concrete two-record all-unknown
feed, hypotheses discharged (its mean is (1/2 + 3/2) / 2 = 1). -/
theorem c8_summarize_contract_witness :
    total_mentions [⟨1, "t", "", "unknown", "", "positive", 1/2, false⟩,
        ⟨2, "u", "", "unknown", "", "negative", 3/2, false⟩] = 2 ∧
    unique_sources [⟨1, "t", "", "unknown", "", "positive", 1/2, false⟩,
        ⟨2, "u", "", "unknown", "", "negative", 3/2, false⟩] = 0 ∧
    avg_risk [⟨1, "t", "", "unknown", "", "positive", 1/2, false⟩,
        ⟨2, "u", "", "unknown", "", "negative", 3/2, false⟩] = 1 ∧
    avg_risk ([] : List Mention) = 0 := by
  have h := c8_summarize_contract
    [⟨1, "t", "", "unknown", "", "positive", 1/2, false⟩,
     ⟨2, "u", "", "unknown", "", "negative", 3/2, false⟩]
  refine ⟨h.1, h.2.1 (by decide), ?_, h.2.2.2.2.2.2.2⟩
  rw [h.2.2.1 (by decide)]
  norm_num

/-- `fetch_mentions.clear()` / `st.cache_data.clear()`: drops every stored
entry of the mention memo table, so the next read for any query is a miss. -/
def clearCache (_ : Cache) : Cache := fun _ => none

/-- What the one POST of the keyword-ingest handler came back with: the
parsed JSON `{status, inserted, message}` on an HTTP-level success (with
`message` equal to `none` when the key is absent, read through
`outcome.get("message", "Unknown error")`), a timeout, or any other raised
exception with its text. -/
inductive IngestResp where
  | ok (status : String) (inserted : Nat) (message : Option String)
  | timeout
  | exn (e : String)
deriving DecidableEq, Repr

/-- The FETCH BY KEYWORDS button handler of `app.py` (lines 104-135), as a
function of the memo-table state, the keyword list and the single response
of its one POST to /api/ingest (the handler is straight-line code: it
issues exactly one request and never retries).  On `status == "success"` it
reports the inserted count and drops the whole `fetch_mentions` memo table
(`fetch_mentions.clear()`); on any other status it surfaces the outcome's
`message` (default "Unknown error") and leaves the cache untouched; on a
timeout or other exception it surfaces the error and leaves the cache
untouched. -/
def fetch_by_keywords_handler (cache : Cache) (keywords : List String)
    (resp : IngestResp) : Cache × String :=
  match resp with
  | .ok status inserted message =>
      if status = "success" then
        (clearCache cache,
          "✅ Fetched **" ++ toString inserted ++ "** articles from **"
            ++ toString keywords.length ++ "** keywords!")
      else
        (cache, "❌ Ingest failed: " ++ message.getD "Unknown error")
  | .timeout => (cache, "❌ Request timed out. Try fewer keywords or lower limit.")
  | .exn e => (cache, "❌ Fetch failed: " ++ e)

/-- The flag-button handler of `1_mentions.py` (lines 318-332), as a
function of the memo-table state and the single response of its one POST to
/api/flag (`raise_for_status` turns any non-2xx reply into an exception;
the handler is straight-line code and never retries).  On success the
returned `reason` is reported and the entire `st.cache_data` store is
cleared; on failure the exception text is surfaced and the cache is left
untouched. -/
def flag_handler (cache : Cache) (resp : Except String String) : Cache × String :=
  match resp with
  | .ok reason => (clearCache cache, "✅ Flagged: " ++ reason)
  | .error e => (cache, "Flag failed: " ++ e)

/-- C9: for both mutating actions - flag and keyword ingest - success
invalidates the entire mention cache, so the next read for ANY query runs
the fetcher (a fresh network fetch); failure leaves the cache exactly as it
was (a failed flag never makes the cache look flagged) and surfaces the
error message verbatim (as the suffix of the fixed reporting prefix), and
each handler issues its single request with no retry (they are functions of
one response). -/
theorem c9_mutations_invalidate_cache_failures_preserve_it (cache : Cache)
    (keywords : List String) (status : String) (inserted : Nat)
    (message : Option String) (e reason : String) :
    (flag_handler cache (.ok reason)).1 = clearCache cache ∧
    (∀ (q : Query) (now : Nat) (f : Query → Except String (List RawMentionA)),
      (fetch_mentions (clearCache cache) now q f).fetcherCalled = true) ∧
    (flag_handler cache (.error e)).1 = cache ∧
    (flag_handler cache (.error e)).2 = "Flag failed: " ++ e ∧
    (status = "success" →
      (fetch_by_keywords_handler cache keywords (.ok status inserted message)).1
        = clearCache cache) ∧
    (status ≠ "success" →
      (fetch_by_keywords_handler cache keywords (.ok status inserted message)).1
          = cache ∧
      (fetch_by_keywords_handler cache keywords (.ok status inserted message)).2
          = "❌ Ingest failed: " ++ message.getD "Unknown error") ∧
    (fetch_by_keywords_handler cache keywords .timeout).1 = cache ∧
    (fetch_by_keywords_handler cache keywords (.exn e)).1 = cache := by
  refine ⟨rfl, ?_, rfl, rfl, ?_, ?_, rfl, rfl⟩
  · intro q now f
    cases hf : f q with
    | ok data => simp [fetch_mentions, clearCache, fetchFresh, hf]
    | error err => simp [fetch_mentions, clearCache, fetchFresh, hf]
  · intro hs
    simp [fetch_by_keywords_handler, hs]
  · intro hs
    constructor <;> simp [fetch_by_keywords_handler, hs]

/-- C9 witness: the mutation theorem at a concrete nonempty cache, the
failing status "error", a concrete error text and reason, with the
universally quantified fresh-fetch conjunct instantiated at a concrete
query. -/
theorem c9_mutations_invalidate_cache_failures_preserve_it_witness :
    (flag_handler (fun _ => some ⟨[], 0⟩) (.ok "urgent")).1
      = clearCache (fun _ => some ⟨[], 0⟩) ∧
    (fetch_mentions (clearCache (fun _ => some ⟨[], 0⟩)) 7 ⟨50, none, none, none⟩
        (fun _ => .ok [])).fetcherCalled = true ∧
    (flag_handler (fun _ => some ⟨[], 0⟩) (.error "boom")).1
      = (fun _ => some ⟨[], 0⟩) ∧
    (flag_handler (fun _ => some ⟨[], 0⟩) (.error "boom")).2
      = "Flag failed: " ++ "boom" ∧
    ("error" ≠ "success") ∧
    (fetch_by_keywords_handler (fun _ => some ⟨[], 0⟩) ["AI", "climate"]
        (.ok "error" 0 (some "quota exceeded"))).1 = (fun _ => some ⟨[], 0⟩) ∧
    (fetch_by_keywords_handler (fun _ => some ⟨[], 0⟩) ["AI", "climate"]
        (.ok "error" 0 (some "quota exceeded"))).2
      = "❌ Ingest failed: " ++ (some "quota exceeded").getD "Unknown error" ∧
    (fetch_by_keywords_handler (fun _ => some ⟨[], 0⟩) ["AI", "climate"]
        (.ok "success" 7 none)).1 = clearCache (fun _ => some ⟨[], 0⟩) :=
  ⟨(c9_mutations_invalidate_cache_failures_preserve_it (fun _ => some ⟨[], 0⟩)
      ["AI", "climate"] "error" 0 (some "quota exceeded") "boom" "urgent").1,
   (c9_mutations_invalidate_cache_failures_preserve_it (fun _ => some ⟨[], 0⟩)
      ["AI", "climate"] "error" 0 (some "quota exceeded") "boom" "urgent").2.1
      ⟨50, none, none, none⟩ 7 (fun _ => .ok []),
   (c9_mutations_invalidate_cache_failures_preserve_it (fun _ => some ⟨[], 0⟩)
      ["AI", "climate"] "error" 0 (some "quota exceeded") "boom" "urgent").2.2.1,
   (c9_mutations_invalidate_cache_failures_preserve_it (fun _ => some ⟨[], 0⟩)
      ["AI", "climate"] "error" 0 (some "quota exceeded") "boom" "urgent").2.2.2.1,
   by decide,
   ((c9_mutations_invalidate_cache_failures_preserve_it (fun _ => some ⟨[], 0⟩)
      ["AI", "climate"] "error" 0 (some "quota exceeded") "boom" "urgent").2.2.2.2.2.1
      (by decide)).1,
   ((c9_mutations_invalidate_cache_failures_preserve_it (fun _ => some ⟨[], 0⟩)
      ["AI", "climate"] "error" 0 (some "quota exceeded") "boom" "urgent").2.2.2.2.2.1
      (by decide)).2,
   (c9_mutations_invalidate_cache_failures_preserve_it (fun _ => some ⟨[], 0⟩)
      ["AI", "climate"] "success" 7 none "boom" "urgent").2.2.2.2.1 rfl⟩
